import Mathlib

/-!
Shallow embedding of the transformer notebook
(`src/.ipynb_checkpoints/transformer-checkpoint.ipynb`) and verification of
the specification's claims about it.

Tensors are modelled per batch element and per head: a rank-2 slice of a
tensor is a function `Fin m → Fin n → ℝ`.  Floating-point arithmetic is
modelled by exact real arithmetic; `torch.Tensor.softmax` over the reals is
`exp (s j) / ∑ k, exp (s k)` (the max-subtraction torch performs for
numerical stability is the identity over ℝ).
-/

noncomputable section

namespace Transformer

/-- Real-number semantics of `Tensor.softmax(dim=-1)` applied to one row
`s : Fin n → ℝ`. -/
def softmax {n : ℕ} (s : Fin n → ℝ) : Fin n → ℝ :=
  fun j => Real.exp (s j) / ∑ k, Real.exp (s k)

/-- One realization of an `nn.Dropout` module acting on an `m × n` tensor:
the drop probability `p`, the module's train/eval mode, and the Bernoulli
keep-mask drawn for this call. -/
structure Dropout (m n : ℕ) where
  p : ℝ
  training : Bool
  keep : Fin m → Fin n → Bool

/-- `nn.Dropout` semantics: in training mode each kept entry is scaled by
`1 / (1 - p)` and each dropped entry becomes `0`; in eval mode the module is
the identity. -/
def Dropout.apply {m n : ℕ} (d : Dropout m n) (w : Fin m → Fin n → ℝ) :
    Fin m → Fin n → ℝ :=
  if d.training then
    fun i j => if d.keep i j then w i j / (1 - d.p) else 0
  else w

/-- `(query @ key.transpose(-2, -1)) / math.sqrt(d_k)` with
`d_k = query.shape[-1]` (notebook cell `MultiHeadAttentionBlock.attention`). -/
def scaledScores {L L' d : ℕ} (query : Fin L → Fin d → ℝ)
    (key : Fin L' → Fin d → ℝ) : Fin L → Fin L' → ℝ :=
  fun i j => (∑ t, query i t * key j t) / Real.sqrt d

/-- `attention_scores.masked_fill_(mask == 0, -1e9)`, guarded by
`if mask is not None`.  The mask is a boolean tensor; an entry equal to
`0` (i.e. `false`) forces the score to the sentinel `-1e9`. -/
def applyMask {L L' : ℕ} (mask : Option (Fin L → Fin L' → Bool))
    (s : Fin L → Fin L' → ℝ) : Fin L → Fin L' → ℝ :=
  match mask with
  | none => s
  | some m => fun i j => if m i j = false then (-1e9 : ℝ) else s i j

/-- `MultiHeadAttentionBlock.attention(query, key, value, mask, dropout)`:
scaled dot-product scores, optional masking, row-wise softmax, optional
dropout, and the pair `(attention_scores @ value, attention_scores)` where
`attention_scores` is the (post-dropout, when dropout is given) weight
matrix. -/
def attention {L L' d dv : ℕ} (query : Fin L → Fin d → ℝ)
    (key : Fin L' → Fin d → ℝ) (value : Fin L' → Fin dv → ℝ)
    (mask : Option (Fin L → Fin L' → Bool)) (dropout : Option (Dropout L L')) :
    (Fin L → Fin dv → ℝ) × (Fin L → Fin L' → ℝ) :=
  let scores := applyMask mask (scaledScores query key)
  let weights := fun i => softmax (scores i)
  let dropped :=
    match dropout with
    | none => weights
    | some dr => dr.apply weights
  (fun i t => ∑ j, dropped i j * value j t, dropped)

/-- The fully causal mask on a sequence of length `L`: position `i` may
attend to position `j` exactly when `j ≤ i`. -/
def causalMask (L : ℕ) : Fin L → Fin L → Bool :=
  fun i j => decide ((j : ℕ) ≤ (i : ℕ))

/-- `x.mean(dim=-1)` over one feature vector. -/
def vMean {n : ℕ} (x : Fin n → ℝ) : ℝ :=
  (∑ i, x i) / n

/-- `x.std(dim=-1)` over one feature vector: `torch.std` defaults to the
unbiased estimator, dividing the summed squared deviations by `n - 1`. -/
def vStd {n : ℕ} (x : Fin n → ℝ) : ℝ :=
  Real.sqrt ((∑ i, (x i - vMean x) ^ 2) / ((n : ℝ) - 1))

/-- `LayerNormalization` module state: `eps` (default `10**-6`) and the
learned scalar parameters `alpha` (initialized to `torch.ones(1)`) and
`bias` (initialized to `torch.zeros(1)`). -/
structure LayerNormalization where
  eps : ℝ := 1e-6
  alpha : ℝ := 1
  bias : ℝ := 0

/-- `LayerNormalization.forward`: `self.alpha * (x - mean) / (std + self.eps)
+ self.bias`, per feature vector. -/
def LayerNormalization.forward (ln : LayerNormalization) {n : ℕ}
    (x : Fin n → ℝ) : Fin n → ℝ :=
  fun i => ln.alpha * (x i - vMean x) / (vStd x + ln.eps) + ln.bias

/-- The pre-scale/shift part of the layer normalization:
`(x - mean) / (std + eps)` — `LayerNormalization.forward` with `alpha = 1`
and `bias = 0`. -/
def normalize (eps : ℝ) {n : ℕ} (x : Fin n → ℝ) : Fin n → ℝ :=
  fun i => (x i - vMean x) / (vStd x + eps)

/-- `div_term = torch.exp(torch.arange(0, d_model, 2).float() *
(-math.log(10000.0) / d_model))` from `PositionalEncoding.__init__`:
entry `i` is `exp(2 i · (−ln 10000 / d_model))`. -/
def divTerm (d_model : ℕ) (i : ℕ) : ℝ :=
  Real.exp ((2 * i : ℝ) * (-(Real.log 10000) / (d_model : ℝ)))

/-- The precomputed positional-encoding buffer `pe` of
`PositionalEncoding.__init__`: `pe[:, 0::2] = sin(position * div_term)` and
`pe[:, 1::2] = cos(position * div_term)`, so even feature index `2 i` holds
`sin(pos · div_term i)` and odd feature index `2 i + 1` holds
`cos(pos · div_term i)`.  The buffer is a pure function of the
configuration `(d_model, seq_len)`; it is registered via `register_buffer`
and holds no learned parameter. -/
def peTable (d_model : ℕ) (pos idx : ℕ) : ℝ :=
  if idx % 2 = 0 then Real.sin ((pos : ℝ) * divTerm d_model (idx / 2))
  else Real.cos ((pos : ℝ) * divTerm d_model (idx / 2))

/-- `ResidualConnection` module state: its `nn.Dropout` (one realization per
call) and its own `LayerNormalization` instance. -/
structure ResidualConnection (L n : ℕ) where
  drop : Dropout L n
  norm : LayerNormalization

/-- `ResidualConnection.forward(x, sublayer) =
x + self.dropout(sublayer(self.norm(x)))`, with `self.norm` applied to each
position's feature vector. -/
def ResidualConnection.forward {L n : ℕ} (rc : ResidualConnection L n)
    (x : Fin L → Fin n → ℝ)
    (sublayer : (Fin L → Fin n → ℝ) → (Fin L → Fin n → ℝ)) :
    Fin L → Fin n → ℝ :=
  fun i j => x i j + rc.drop.apply (sublayer (fun p => rc.norm.forward (x p))) i j

/-- Python runtime errors raised by the notebook's broken cells. -/
inductive PyError
  | nameError
  | typeError
  | attributeError
deriving DecidableEq

/-- Configuration fields a `MultiHeadAttentionBlock` would hold. -/
structure MHAConfig where
  d_model : ℕ
  h : ℕ
  d_k : ℕ
deriving DecidableEq

/-- `MultiHeadAttentionBlock.__init__(d_model, h, dropout)`: after storing
`d_model` and `h`, the line `self.d_k = d_mode // h` references the
undefined name `d_mode` (a typo for `d_model`), so construction raises
`NameError` for every input — there is no `d_model % h` divisibility check
anywhere in the constructor. -/
def mhaInit (d_model h : ℕ) (dropout : ℝ) : Except PyError MHAConfig :=
  .error .nameError

/-- The constructor body with the `d_mode` typo corrected to `d_model` (the
only intended reading): it computes `d_k` by integer division `d_model // h`
and performs no divisibility validation. -/
def mhaInitTypoFixed (d_model h : ℕ) : MHAConfig :=
  { d_model := d_model, h := h, d_k := d_model / h }

/-- Mutable state of a `MultiHeadAttentionBlock` instance: the
`attention_scores` attribute that `forward` is supposed to store
(`None`/absent before the first successful call). -/
structure MHAState (L : ℕ) where
  attention_scores : Option (Fin L → Fin L → ℝ)

/-- `MultiHeadAttentionBlock.forward` is declared as
`def forward(q, k, v, mask)` — without `self`.  Invoking the module (which
calls the bound method with the four user arguments, hence five arguments
for a four-parameter function) raises `TypeError` before the body runs, so
no output is produced and no attribute is assigned: the returned state is
the input state, unchanged.  (Had the body run, the later
`x.transpose(1, 2).contigous(...)` — a typo for `contiguous` — would raise
`AttributeError` as well.) -/
def mhaForwardCall {L d : ℕ} (cfg : MHAConfig) (st : MHAState L)
    (q k v : Fin L → Fin d → ℝ) (mask : Option (Fin L → Fin L → Bool)) :
    Except PyError (Fin L → Fin d → ℝ) × MHAState L :=
  (.error .typeError, st)

/-! ### Concrete inputs used in counterexamples and witnesses -/

/-- A 2 × 1 zero tensor slice. -/
def zq : Fin 2 → Fin 1 → ℝ := fun _ _ => 0

/-- A 1 × 1 all-ones query. -/
def cxq : Fin 1 → Fin 1 → ℝ := fun _ _ => 1

/-- A 2 × 1 key whose row `j` is the scalar `j`. -/
def cxk : Fin 2 → Fin 1 → ℝ := fun j _ => (j : ℕ)

/-- A 2 × 1 zero value tensor. -/
def cxv : Fin 2 → Fin 1 → ℝ := fun _ _ => 0

/-- A training-mode dropout realization with `p = 1/2` that drops key
position `0` and keeps key position `1`. -/
def cxdrop : Dropout 1 2 :=
  { p := 1 / 2, training := true, keep := fun _ j => decide ((j : ℕ) = 1) }

/-- A 1 × 1 zero tensor slice. -/
def oneq : Fin 1 → Fin 1 → ℝ := fun _ _ => 0

/-- The constant feature vector `(1, 1)`. -/
def onesVec : Fin 2 → ℝ := fun _ => 1

/-- The feature vector `(0, 2)`: mean `1`, unbiased standard deviation
`√2`. -/
def devVec : Fin 2 → ℝ := fun i => 2 * (i : ℕ)

/-- A 2 × 2 zero tensor slice. -/
def q0 : Fin 2 → Fin 2 → ℝ := fun _ _ => 0

/-! ### Helper lemmas -/

theorem sum_exp_pos {n : ℕ} (hn : 0 < n) (s : Fin n → ℝ) :
    0 < ∑ k, Real.exp (s k) := by
  have : Nonempty (Fin n) := ⟨⟨0, hn⟩⟩
  exact Finset.sum_pos (fun k _ => Real.exp_pos _) Finset.univ_nonempty

theorem softmax_pos {n : ℕ} (s : Fin n → ℝ) (j : Fin n) : 0 < softmax s j :=
  div_pos (Real.exp_pos _) (sum_exp_pos j.pos s)

theorem softmax_sum_one {n : ℕ} (hn : 0 < n) (s : Fin n → ℝ) :
    ∑ j, softmax s j = 1 := by
  unfold softmax
  rw [← Finset.sum_div]
  exact div_self (ne_of_gt (sum_exp_pos hn s))

theorem attention_weights_no_dropout {L L' d dv : ℕ}
    (query : Fin L → Fin d → ℝ) (key : Fin L' → Fin d → ℝ)
    (value : Fin L' → Fin dv → ℝ) (mask : Option (Fin L → Fin L' → Bool)) :
    (attention query key value mask none).2 =
      fun i => softmax (applyMask mask (scaledScores query key) i) := rfl

theorem sum_dev_zero {n : ℕ} (x : Fin n → ℝ) :
    ∑ i, (x i - vMean x) = 0 := by
  rcases Nat.eq_zero_or_pos n with h0 | hn
  · subst h0; simp
  · have hne : (n : ℝ) ≠ 0 := Nat.cast_ne_zero.mpr hn.ne'
    rw [Finset.sum_sub_distrib, Finset.sum_const, Finset.card_univ,
      Fintype.card_fin, nsmul_eq_mul, vMean]
    field_simp

theorem vMean_normalize {n : ℕ} (eps : ℝ) (x : Fin n → ℝ) :
    vMean (normalize eps x) = 0 := by
  unfold vMean normalize
  rw [← Finset.sum_div, sum_dev_zero, zero_div, zero_div]

theorem vStd_normalize {n : ℕ} (eps : ℝ) (x : Fin n → ℝ)
    (hD : 0 < vStd x + eps) :
    vStd (normalize eps x) = vStd x / (vStd x + eps) := by
  have hmean := vMean_normalize eps x
  have key : (∑ i, (normalize eps x i - vMean (normalize eps x)) ^ 2) /
        ((n : ℝ) - 1)
      = (1 / (vStd x + eps)) ^ 2 *
        ((∑ i, (x i - vMean x) ^ 2) / ((n : ℝ) - 1)) := by
    rw [hmean]
    simp only [normalize, sub_zero, div_pow]
    rw [← Finset.sum_div]
    ring
  calc vStd (normalize eps x)
      = Real.sqrt ((∑ i, (normalize eps x i - vMean (normalize eps x)) ^ 2) /
          ((n : ℝ) - 1)) := rfl
    _ = Real.sqrt ((1 / (vStd x + eps)) ^ 2 *
          ((∑ i, (x i - vMean x) ^ 2) / ((n : ℝ) - 1))) := by
          rw [key]
    _ = |1 / (vStd x + eps)| * vStd x := by
          rw [Real.sqrt_mul (sq_nonneg _), Real.sqrt_sq_eq_abs]; rfl
    _ = vStd x / (vStd x + eps) := by
          rw [abs_of_pos (one_div_pos.mpr hD), one_div_mul_eq_div]

theorem devVec_std : vStd devVec = Real.sqrt 2 := by
  unfold vStd vMean devVec
  norm_num [Fin.sum_univ_two]

theorem devVec_std_ge : (0.01 : ℝ) ≤ vStd devVec := by
  rw [devVec_std]
  nlinarith [Real.sq_sqrt (by norm_num : (0:ℝ) ≤ 2), Real.sqrt_nonneg 2]

theorem pos_mul_divTerm (d_model pos i : ℕ) :
    (pos : ℝ) * divTerm d_model i =
      (pos : ℝ) / (10000 : ℝ) ^ ((2 * i : ℕ) / (d_model : ℝ)) := by
  unfold divTerm
  rw [Real.rpow_def_of_pos (by norm_num : (0:ℝ) < 10000)]
  rw [eq_div_iff (Real.exp_ne_zero _), mul_assoc, ← Real.exp_add]
  have hz : (2 * i : ℝ) * (-(Real.log 10000) / (d_model : ℝ)) +
      Real.log 10000 * (((2 * i : ℕ) : ℝ) / (d_model : ℝ)) = 0 := by
    push_cast
    ring
  rw [hz, Real.exp_zero, mul_one]

/-! ### Claim theorems -/

/-- C3: for all query/key/value tensors of matching per-head width `d_k`,
`MultiHeadAttentionBlock.attention` computes
`Score[i,j] = dot(query[i], key[j]) / sqrt(d_k)`, returns as first
component `Output` with `Output[i] = ∑ j, Weight[i,j] * value[j]` where
`Weight` is exactly the second returned component, and (absent mask and
dropout) the returned weights are the row-wise softmax of those scores. -/
theorem attention_scaled_dot_product_spec {L L' d dv : ℕ}
    (query : Fin L → Fin d → ℝ) (key : Fin L' → Fin d → ℝ)
    (value : Fin L' → Fin dv → ℝ) :
    (∀ (mask : Option (Fin L → Fin L' → Bool))
        (dropout : Option (Dropout L L')) (i : Fin L) (t : Fin dv),
      (attention query key value mask dropout).1 i t =
        ∑ j, (attention query key value mask dropout).2 i j * value j t) ∧
    (∀ i j, scaledScores query key i j =
      (∑ t, query i t * key j t) / Real.sqrt d) ∧
    (∀ i j, (attention query key value none none).2 i j =
      softmax (scaledScores query key i) j) := by
  refine ⟨fun mask dropout i t => rfl, fun i j => rfl, fun i j => rfl⟩

/-- C9: with `mask = None` the masking step is skipped: the returned
weights (no dropout, i.e. inference identity) are the plain row-wise
softmax of the scaled scores, and every key position receives strictly
positive weight. -/
theorem attention_no_mask_spec {L L' d dv : ℕ}
    (query : Fin L → Fin d → ℝ) (key : Fin L' → Fin d → ℝ)
    (value : Fin L' → Fin dv → ℝ) :
    ((attention query key value none none).2 =
      fun i => softmax (scaledScores query key i)) ∧
    (∀ (i : Fin L) (j : Fin L'),
      0 < (attention query key value none none).2 i j) := by
  exact ⟨rfl, fun i j => softmax_pos _ j⟩

/-- C4 (amended): for every mask-free input with at least one key
position, the pre-dropout attention weights — the weights the function
returns when no dropout is applied, as at inference where dropout is the
identity — are row-stochastic: non-negative and summing exactly to 1 per
query row.  (The post-dropout weights returned in training mode need not
sum to 1; see the counterexample.) -/
theorem attention_row_stochastic {L L' d dv : ℕ} (hL' : 0 < L')
    (query : Fin L → Fin d → ℝ) (key : Fin L' → Fin d → ℝ)
    (value : Fin L' → Fin dv → ℝ) (i : Fin L) :
    (∑ j, (attention query key value none none).2 i j) = 1 ∧
    (∀ j, 0 ≤ (attention query key value none none).2 i j) := by
  refine ⟨softmax_sum_one hL' _, fun j => le_of_lt (softmax_pos _ j)⟩

/-- Witness for `attention_row_stochastic` at a concrete input. -/
theorem attention_row_stochastic_witness :
    0 < 1 ∧
    ((∑ j, (attention oneq oneq oneq none none).2 0 j) = 1 ∧
     (∀ j, 0 ≤ (attention oneq oneq oneq none none).2 0 j)) :=
  ⟨by decide, attention_row_stochastic (by decide) oneq oneq oneq 0⟩

/-- C4 counterexample: the claim also asserts row-stochasticity "including
when the returned weights are the post-dropout weights", but in training
mode a post-dropout row need not sum to 1 (even within the spec's 1e-5
tolerance): with scores `(0, 1)`, `p = 1/2` and key position `0` dropped,
the returned row sums to `2·e/(1+e) ≈ 1.462`. -/
theorem attention_post_dropout_row_sum_cx :
    ¬ (|(∑ j, (attention cxq cxk cxv none (some cxdrop)).2 0 j) - 1| ≤ 1e-5) := by
  have hsum : (∑ j, (attention cxq cxk cxv none (some cxdrop)).2 0 j) =
      2 * Real.exp 1 / (1 + Real.exp 1) := by
    simp [attention, Dropout.apply, cxdrop, softmax, scaledScores, applyMask,
      cxq, cxk, Fin.sum_univ_two, Fin.sum_univ_one, Real.sqrt_one,
      Real.exp_zero]
    ring
  rw [hsum]
  have he : (2.7182818283 : ℝ) < Real.exp 1 := Real.exp_one_gt_d9
  have hd : (0 : ℝ) < 1 + Real.exp 1 := by positivity
  rw [not_le]
  have hpos : (0 : ℝ) < 2 * Real.exp 1 / (1 + Real.exp 1) - 1 := by
    rw [sub_pos, lt_div_iff₀ hd]; nlinarith
  rw [abs_of_pos hpos, lt_sub_iff_add_lt, lt_div_iff₀ hd]
  nlinarith

/-- C1 (amended): with a fully causal mask and no dropout, the weight at
every forbidden position `j > i` is not exactly `0`: it is strictly
positive, but bounded above by `exp(-1e9 - Score[i,i])` — vanishingly
small, because the implementation writes the finite sentinel `-1e9`
(not `-∞`) into the masked scores before the row-wise softmax; an exact
zero arises only from floating-point underflow, not from the real-valued
computation. -/
theorem causal_mask_weight_tiny {L d dv : ℕ} (query key : Fin L → Fin d → ℝ)
    (value : Fin L → Fin dv → ℝ) (i j : Fin L) (hij : (i : ℕ) < (j : ℕ)) :
    0 < (attention query key value (some (causalMask L)) none).2 i j ∧
    (attention query key value (some (causalMask L)) none).2 i j ≤
      Real.exp (-1e9 - scaledScores query key i i) := by
  constructor
  · exact softmax_pos _ j
  · have hmj : applyMask (some (causalMask L)) (scaledScores query key) i j =
        (-1e9 : ℝ) := by
      simp [applyMask, causalMask, Nat.not_le.mpr hij]
    have hmi : applyMask (some (causalMask L)) (scaledScores query key) i i =
        scaledScores query key i i := by
      simp [applyMask, causalMask]
    have hden : Real.exp (scaledScores query key i i) ≤
        ∑ k, Real.exp (applyMask (some (causalMask L))
          (scaledScores query key) i k) := by
      rw [← hmi]
      exact Finset.single_le_sum (fun k _ => le_of_lt (Real.exp_pos _))
        (Finset.mem_univ i)
    have hw : (attention query key value (some (causalMask L)) none).2 i j =
        Real.exp (-1e9 : ℝ) / ∑ k, Real.exp (applyMask (some (causalMask L))
          (scaledScores query key) i k) := by
      rw [attention_weights_no_dropout]
      unfold softmax
      simp only [hmj]
    rw [hw, Real.exp_sub]
    exact div_le_div_of_nonneg_left (le_of_lt (Real.exp_pos _))
      (Real.exp_pos _) hden

/-- Witness for `causal_mask_weight_tiny` at a concrete input. -/
theorem causal_mask_weight_tiny_witness :
    0 < (attention zq zq zq (some (causalMask 2)) none).2 0 1 ∧
    (attention zq zq zq (some (causalMask 2)) none).2 0 1 ≤
      Real.exp (-1e9 - scaledScores zq zq 0 0) :=
  causal_mask_weight_tiny zq zq zq 0 1 (by decide)

/-- C1 counterexample: the claim's `weight[i,j] == 0` is false in the
real-valued semantics of the code — at the all-zero input with the fully
causal mask on length 2, the weight at `(i, j) = (0, 1)` is nonzero. -/
theorem causal_mask_weight_nonzero_cx :
    (attention zq zq zq (some (causalMask 2)) none).2 0 1 ≠ 0 :=
  ne_of_gt (softmax_pos _ 1)

/-- C6 (amended): `LayerNormalization.forward` subtracts the
per-feature-vector mean, divides by the standard deviation plus `eps`
(default `1e-6`), and applies the learned scale `alpha` and shift `bias`.
Before scale/shift the normalized vector has mean exactly `0`, and its
standard deviation is `std(x) / (std(x) + eps)` — within `1e-4` of `1`
provided the input's standard deviation is at least `0.01`; for
smaller-spread inputs the claimed tolerance fails (see the
counterexample). -/
theorem layernorm_normalization_spec {n : ℕ} (x : Fin n → ℝ)
    (hstd : (0.01 : ℝ) ≤ vStd x) :
    vMean (normalize 1e-6 x) = 0 ∧
    |vStd (normalize 1e-6 x) - 1| ≤ 1e-4 ∧
    ∀ (ln : LayerNormalization) (i : Fin n),
      ln.forward x i = ln.alpha * normalize ln.eps x i + ln.bias := by
  have hD : (0 : ℝ) < vStd x + 1e-6 := by nlinarith
  refine ⟨vMean_normalize _ x, ?_, fun ln i => ?_⟩
  · rw [vStd_normalize _ x hD]
    have hrw : vStd x / (vStd x + 1e-6) - 1 = -(1e-6 / (vStd x + 1e-6)) := by
      field_simp
    rw [hrw, abs_neg, abs_of_pos (by positivity)]
    rw [div_le_iff₀ hD]; nlinarith
  · unfold LayerNormalization.forward normalize
    rw [mul_div_assoc]

/-- Witness for `layernorm_normalization_spec` at the concrete vector
`(0, 2)`, whose unbiased standard deviation is `√2 ≥ 0.01`. -/
theorem layernorm_normalization_spec_witness :
    (0.01 : ℝ) ≤ vStd devVec ∧
    (vMean (normalize 1e-6 devVec) = 0 ∧
     |vStd (normalize 1e-6 devVec) - 1| ≤ 1e-4 ∧
     ∀ (ln : LayerNormalization) (i : Fin 2),
       ln.forward devVec i = ln.alpha * normalize ln.eps devVec i + ln.bias) :=
  ⟨devVec_std_ge, layernorm_normalization_spec devVec devVec_std_ge⟩

/-- C6 counterexample: on the constant feature vector `(1, 1)` the
pre-scale/shift normalized vector is identically `0`, so its standard
deviation is `0`, not within `1e-4` of `1` — the claim's "for every input
tensor" is too strong. -/
theorem layernorm_unit_std_cx :
    ¬ (|vStd (normalize 1e-6 onesVec) - 1| ≤ 1e-4) := by
  have h0 : normalize 1e-6 onesVec = fun _ => 0 := by
    funext i
    simp [normalize, vMean, onesVec, Fin.sum_univ_two]
  rw [h0]
  have h1 : vStd (fun _ : Fin 2 => (0 : ℝ)) = 0 := by
    simp [vStd, vMean, Fin.sum_univ_two]
  rw [h1]; norm_num

/-- C7: every entry of the precomputed positional-encoding table holds
`sin(pos / 10000^(2i/d_model))` at even feature index `2 i` and
`cos(pos / 10000^(2i/d_model))` at odd feature index `2 i + 1` (indices
within the table's width `d_model`); the table is a fixed pure function of
the configuration, holding no learned parameter. -/
theorem positional_encoding_spec (d_model pos i : ℕ)
    (h : 2 * i + 1 < d_model) :
    peTable d_model pos (2 * i) =
      Real.sin ((pos : ℝ) / (10000 : ℝ) ^ ((2 * i : ℕ) / (d_model : ℝ))) ∧
    peTable d_model pos (2 * i + 1) =
      Real.cos ((pos : ℝ) / (10000 : ℝ) ^ ((2 * i : ℕ) / (d_model : ℝ))) := by
  have he : (2 * i) % 2 = 0 := by omega
  have he2 : (2 * i) / 2 = i := by omega
  have ho : (2 * i + 1) % 2 = 1 := by omega
  have ho2 : (2 * i + 1) / 2 = i := by omega
  constructor
  · simp only [peTable, he, he2, if_true, pos_mul_divTerm]
  · simp only [peTable, ho, ho2, pos_mul_divTerm]
    norm_num

/-- Witness for `positional_encoding_spec` at `d_model = 4`, `pos = 1`,
pair-index `i = 0`. -/
theorem positional_encoding_spec_witness :
    peTable 4 1 (2 * 0) =
      Real.sin ((1 : ℕ) / (10000 : ℝ) ^ ((2 * 0 : ℕ) / ((4 : ℕ) : ℝ))) ∧
    peTable 4 1 (2 * 0 + 1) =
      Real.cos ((1 : ℕ) / (10000 : ℝ) ^ ((2 * 0 : ℕ) / ((4 : ℕ) : ℝ))) :=
  positional_encoding_spec 4 1 0 (by decide)

/-- C8: `ResidualConnection.forward` is pre-norm residual wiring: the
output at `(i, j)` is the unnormalized input `x i j` plus the dropout of
the sublayer applied to the layer-normalized input (the normalization
formula spelled out from `LayerNormalization.forward`). -/
theorem residual_pre_norm_spec {L n : ℕ} (rc : ResidualConnection L n)
    (x : Fin L → Fin n → ℝ)
    (sublayer : (Fin L → Fin n → ℝ) → (Fin L → Fin n → ℝ))
    (i : Fin L) (j : Fin n) :
    rc.forward x sublayer i j =
      x i j + rc.drop.apply
        (sublayer (fun p q => rc.norm.alpha * (x p q - vMean (x p)) /
          (vStd (x p) + rc.norm.eps) + rc.norm.bias)) i j := rfl

/-- C2: `MultiHeadAttentionBlock.__init__` does not validate divisibility;
it raises `NameError` (the `d_mode` typo) for the invalid configuration
`d_model = 10, h = 3` — but equally for the valid configuration
`d_model = 8, h = 2` — and with the typo corrected it silently truncates
`d_k` to `10 // 3 = 3` even though `10 % 3 ≠ 0`, with no configuration
error of any kind. -/
theorem mha_init_no_validation :
    mhaInit 10 3 (1 / 10) = .error .nameError ∧
    mhaInit 8 2 (1 / 10) = .error .nameError ∧
    (mhaInitTypoFixed 10 3).d_k = 3 ∧ 10 % 3 ≠ 0 :=
  ⟨rfl, rfl, rfl, by decide⟩

/-- C5: evaluating the code at the failing input — a `h = 1` block applied
to concrete tensors — shows `MultiHeadAttentionBlock.forward` raises
`TypeError` (the method is declared without `self`), so the h=1 instance
never produces an output that could match single-head scaled dot-product
attention. -/
theorem mha_forward_h1_crashes :
    mhaForwardCall (mhaInitTypoFixed 2 1) ⟨none⟩ q0 q0 q0 none =
      (.error .typeError, ⟨none⟩) := rfl

/-- C10: evaluating the code at the failing input — the call raises
`TypeError` before the body runs, so `self.attention_scores` is never
assigned: after the call the state still holds `none`, contradicting the
claim that every call stores the per-head weight matrix. -/
theorem mha_forward_no_state_update :
    (mhaForwardCall (mhaInitTypoFixed 4 2) ⟨none⟩ q0 q0 q0
        (some (causalMask 2))).2.attention_scores = none ∧
    (mhaForwardCall (mhaInitTypoFixed 4 2) ⟨none⟩ q0 q0 q0
        (some (causalMask 2))).1 = .error .typeError :=
  ⟨rfl, rfl⟩

end Transformer

end
